import Mathlib

/-!
Shallow embedding of `src/ARtest.py`, a script computing the cost of
capital, METR and EATR for three asset types under three Arkansas state
tax policy scenarios.

Modelling conventions:
* numeric values are rationals (the script does exact-looking float
  arithmetic on literal constants; all claims are about the algebra);
* Python dictionaries are association lists over `String` keys, a failed
  lookup is a `PyError.keyError`, and the `assert False` branch of the
  method dispatch is a `PyError.assertError`;
* the external `ccc` formula library is out of the specification's scope,
  so its functions are parameters gathered in the record `Ext` — except
  `eq_metr`, which some claims need and which is modelled from the spec;
* the dictionaries `compute_outputs` can read (the module-wide
  configuration dictionaries and the two caller-supplied maps) are
  threaded through it as an explicit `State`, so non-mutation is a
  provable property rather than an artifact of purity;
* text printed by the script is returned as a list of lines.
-/

namespace ARtest

/-- Errors that can abort `compute_outputs`: a failed dictionary lookup
(`KeyError` in Python) or the `assert False` on line 105. -/
inductive PyError where
  | keyError (key : String)
  | assertError
  deriving DecidableEq

/-- The per-asset entries stored into `out_dict` (lines 114-116). -/
structure Outputs where
  rho : ℚ
  metr : ℚ
  eatr : ℚ
  deriving DecidableEq

/-- The surface of the external `ccc` library that the script consumes
(spec section 6).  Its internals are out of scope, so the functions are
abstract parameters; claims that depend on their values are proved for
every instantiation satisfying explicitly stated sign conditions. -/
structure Ext where
  calc_r : ℚ → ℚ → ℚ → ℚ → ℚ → ℚ → ℚ → ℚ → ℚ
  calc_r_prime : ℚ → ℚ → ℚ → ℚ → ℚ
  dbsl : ℚ → ℚ → ℚ → ℚ → ℚ
  sl : ℚ → ℚ → ℚ → ℚ
  eq_eatr : ℚ → ℚ → ℚ → ℚ → ℚ

/-- Modelled from the spec: `ccc.calcfunctions.eq_metr` is external
library code not under `src/`.  The spec fixes its call contract
("a METR function (rho, r', inflation -> metr)") and its glossary defines
the METR as "the share of the cost of capital attributable to taxation,
for a marginal (breakeven) investment"; the saver's real after-tax return
is `r_prime - pi`, so the share of `rho` taken by taxes is
`(rho - (r_prime - pi)) / rho`. -/
def eq_metr (rho r_prime pi : ℚ) : ℚ :=
  (rho - (r_prime - pi)) / rho

/-- Cost of capital with state taxes (`eq_coc_state`, lines 17-46). -/
def eq_coc_state (delta z_f z_s w u_f u_s tau_GR inv_tax_credit pi r : ℚ) : ℚ :=
  ((((r - pi + delta) / (1 - u_f - u_s + u_f * u_s)) *
      (1 - inv_tax_credit - u_f * z_f - u_s * z_s + u_f * u_s * z_s) + w) /
    (1 - tau_GR)) - delta

/-- Line 50. -/
def inflation_rate : ℚ := 0.02

/-- Line 51. -/
def nominal_int_rate : ℚ := 0.06

/-- Line 52. -/
def fraction_financed_w_debt : ℚ := 0.0

/-- Line 54. -/
def federal_bonus_depreciation : List (String × ℚ) :=
  [("machines", 0.4), ("buildings", 0.0), ("intangibles", 0.4)]

/-- Line 55. -/
def depreciation_rates : List (String × ℚ) :=
  [("machines", 0.1031), ("buildings", 0.0314), ("intangibles", 0.33)]

/-- Line 57. -/
def depreciation_lives : List (String × ℚ) :=
  [("machines", 7), ("buildings", 39), ("intangibles", 3)]

/-- Line 58. -/
def depreciation_methods : List (String × String) :=
  [("machines", "dbsl"), ("buildings", "sl"), ("intangibles", "sl")]

/-- Line 59: expected after-tax return on corporate equity. -/
def E : ℚ := 0.06

/-- Line 60. -/
def profit_rate : ℚ := 0.2

/-- Line 61. -/
def int_haircut : ℚ := 0.0

/-- Line 62: federal statutory rate. -/
def u_f : ℚ := 0.21

/-- Line 63: current-law state statutory rate. -/
def u_s : ℚ := 0.043

/-- Line 64. -/
def franchise_tax_rate : ℚ := 0.003

/-- Line 65. -/
def tau_GR : ℚ := 0.00

/-- Lines 66-68. -/
def inv_tax_credit_s : List (String × ℚ) :=
  [("machines", 0.015), ("buildings", 0.025), ("intangibles", 0.01)]

/-- Line 69. -/
def bonus_s : List (String × ℚ) :=
  [("machines", 0.0), ("buildings", 0.0), ("intangibles", 0.0)]

/-- The dictionary-valued data `compute_outputs` can read: the four
module-wide configuration dictionaries plus the two dictionary arguments
of the call.  Threaded through `compute_outputs` explicitly so that
(non-)mutation is observable. -/
structure State where
  depreciation_rates : List (String × ℚ)
  depreciation_lives : List (String × ℚ)
  depreciation_methods : List (String × String)
  federal_bonus_depreciation : List (String × ℚ)
  bonus_s : List (String × ℚ)
  inv_tax_credit : List (String × ℚ)
  deriving DecidableEq

/-- The discount rate recomputed on every loop iteration (lines 92-94):
`ccc.paramfunctions.calc_r` applied to the combined statutory rate and the
module-level macro constants. -/
def r_of (ext : Ext) (u_s : ℚ) : ℚ :=
  ext.calc_r (u_f + u_s - u_f * u_s) nominal_int_rate inflation_rate
    nominal_int_rate fraction_financed_w_debt int_haircut E 0.0

/-- The after-tax discount rate recomputed on every loop iteration
(lines 95-96): `ccc.paramfunctions.calc_r_prime`. -/
def rp_of (ext : Ext) : ℚ :=
  ext.calc_r_prime nominal_int_rate inflation_rate fraction_financed_w_debt E

/-- Lines 97-105: the depreciation-schedule dispatch for asset `k`.
Returns the lines printed and either `(z_f, z_s)` or the Python error, in
the source's evaluation order (lives, then federal bonus, then state
bonus). -/
def zPart (ext : Ext) (st : State) (k : String) (r : ℚ) :
    List String × Except PyError (ℚ × ℚ) :=
  match st.depreciation_methods.lookup k with
  | none => ([], .error (.keyError k))
  | some m =>
    if m = "dbsl" then
      match st.depreciation_lives.lookup k, st.federal_bonus_depreciation.lookup k,
          st.bonus_s.lookup k with
      | none, _, _ => ([], .error (.keyError k))
      | some _, none, _ => ([], .error (.keyError k))
      | some _, some _, none => ([], .error (.keyError k))
      | some life, some fb, some sb =>
          ([], .ok (ext.dbsl life 2 fb r, ext.dbsl life 2 sb r))
    else if m = "sl" then
      match st.depreciation_lives.lookup k, st.federal_bonus_depreciation.lookup k,
          st.bonus_s.lookup k with
      | none, _, _ => ([], .error (.keyError k))
      | some _, none, _ => ([], .error (.keyError k))
      | some _, some _, none => ([], .error (.keyError k))
      | some life, some fb, some sb =>
          ([], .ok (ext.sl life fb r, ext.sl life sb r))
    else
      (["Please enter one of: dbsl, sl"], .error .assertError)

/-- One iteration of the `compute_outputs` loop (lines 91-116).  `v` is
the dictionary value bound by `for k, v in depreciation_rates.items()`;
the body never uses it and instead looks `depreciation_rates[k]` up again
on line 107, which the embedding mirrors. -/
def assetStep (ext : Ext) (st : State) (u_s franchise_tax_rate tau_GR : ℚ)
    (k : String) (v : ℚ) : List String × Except PyError Outputs :=
  let r := r_of ext u_s
  let r_prime := rp_of ext
  match zPart ext st k r with
  | (log, .error e) => (log, .error e)
  | (log, .ok (z_f, z_s)) =>
    match st.depreciation_rates.lookup k with
    | none => (log, .error (.keyError k))
    | some delta =>
      match st.inv_tax_credit.lookup k with
      | none => (log, .error (.keyError k))
      | some itc =>
        let rho := eq_coc_state delta z_f z_s franchise_tax_rate u_f u_s tau_GR
          itc inflation_rate r
        let metr := eq_metr rho r_prime inflation_rate
        let eatr := ext.eq_eatr rho metr profit_rate (u_f + u_s - u_f * u_s)
        (log, .ok ⟨rho, metr, eatr⟩)

/-- The loop of lines 91-116 over the items of `depreciation_rates`,
accumulating printed lines, stopping at the first Python error, and
collecting `out_dict` in insertion order. -/
def runAssets (ext : Ext) (st : State) (u_s franchise_tax_rate tau_GR : ℚ) :
    List (String × ℚ) → List String × Except PyError (List (String × Outputs))
  | [] => ([], .ok [])
  | (k, v) :: rest =>
    match assetStep ext st u_s franchise_tax_rate tau_GR k v with
    | (log, .error e) => (log, .error e)
    | (log, .ok o) =>
      match runAssets ext st u_s franchise_tax_rate tau_GR rest with
      | (log2, .error e) => (log ++ log2, .error e)
      | (log2, .ok os) => (log ++ log2, .ok ((k, o) :: os))

/-- `compute_outputs` (lines 77-117): returns the state it read (to make
mutation observable), the printed lines, and `out_dict` or the Python
error that aborted the call. -/
def compute_outputs (ext : Ext) (st : State) (u_s franchise_tax_rate tau_GR : ℚ) :
    State × List String × Except PyError (List (String × Outputs)) :=
  (st, runAssets ext st u_s franchise_tax_rate tau_GR st.depreciation_rates)

/-- Refactored variant of `assetStep` that receives `r` and `r_prime`
instead of recomputing them (for the hoisting-equivalence claim). -/
def assetStepHoisted (ext : Ext) (st : State) (u_s franchise_tax_rate tau_GR r r_prime : ℚ)
    (k : String) (v : ℚ) : List String × Except PyError Outputs :=
  match zPart ext st k r with
  | (log, .error e) => (log, .error e)
  | (log, .ok (z_f, z_s)) =>
    match st.depreciation_rates.lookup k with
    | none => (log, .error (.keyError k))
    | some delta =>
      match st.inv_tax_credit.lookup k with
      | none => (log, .error (.keyError k))
      | some itc =>
        let rho := eq_coc_state delta z_f z_s franchise_tax_rate u_f u_s tau_GR
          itc inflation_rate r
        let metr := eq_metr rho r_prime inflation_rate
        let eatr := ext.eq_eatr rho metr profit_rate (u_f + u_s - u_f * u_s)
        (log, .ok ⟨rho, metr, eatr⟩)

/-- Loop of the refactored variant, with `r` and `r_prime` hoisted. -/
def runAssetsHoisted (ext : Ext) (st : State) (u_s franchise_tax_rate tau_GR r r_prime : ℚ) :
    List (String × ℚ) → List String × Except PyError (List (String × Outputs))
  | [] => ([], .ok [])
  | (k, v) :: rest =>
    match assetStepHoisted ext st u_s franchise_tax_rate tau_GR r r_prime k v with
    | (log, .error e) => (log, .error e)
    | (log, .ok o) =>
      match runAssetsHoisted ext st u_s franchise_tax_rate tau_GR r r_prime rest with
      | (log2, .error e) => (log ++ log2, .error e)
      | (log2, .ok os) => (log ++ log2, .ok ((k, o) :: os))

/-- Refactored `compute_outputs` that computes the discount rates once
before the loop (the refactoring claimed extensionally equal). -/
def compute_outputs_hoisted (ext : Ext) (st : State) (u_s franchise_tax_rate tau_GR : ℚ) :
    State × List String × Except PyError (List (String × Outputs)) :=
  let r := r_of ext u_s
  let r_prime := rp_of ext
  (st, runAssetsHoisted ext st u_s franchise_tax_rate tau_GR r r_prime st.depreciation_rates)

/-- The state holding the module-wide dictionaries together with the maps
the script passes at each call site (`bonus_s` and `inv_tax_credit_s`). -/
def st0 : State :=
  ⟨depreciation_rates, depreciation_lives, depreciation_methods,
   federal_bonus_depreciation, bonus_s, inv_tax_credit_s⟩

/-- Lines 121-125: the current-law invocation. -/
def base_out (ext : Ext) :
    State × List String × Except PyError (List (String × Outputs)) :=
  compute_outputs ext st0 u_s franchise_tax_rate tau_GR

/-- Line 127. -/
def u_s_ref1 : ℚ := 0.035

/-- Lines 128-132: the lowered-state-CIT invocation. -/
def ar_citcut_out (ext : Ext) :
    State × List String × Except PyError (List (String × Outputs)) :=
  compute_outputs ext st0 u_s_ref1 franchise_tax_rate tau_GR

/-- Line 134. -/
def franchise_tax_rate_ref2 : ℚ := 0.000

/-- Lines 135-139: the removed-franchise-tax invocation. -/
def ar_frtaxrmv_out (ext : Ext) :
    State × List String × Except PyError (List (String × Outputs)) :=
  compute_outputs ext st0 u_s franchise_tax_rate_ref2 tau_GR

/-- The outputs lines 106-116 derive from an asset's depreciation values:
shared shape of what each loop iteration stores into `out_dict[k]`. -/
def stepResult (ext : Ext) (u_s franchise_tax_rate tau_GR delta z_f z_s itc : ℚ) : Outputs :=
  let rho := eq_coc_state delta z_f z_s franchise_tax_rate u_f u_s tau_GR itc
    inflation_rate (r_of ext u_s)
  let metr := eq_metr rho (rp_of ext) inflation_rate
  ⟨rho, metr, ext.eq_eatr rho metr profit_rate (u_f + u_s - u_f * u_s)⟩

/-- Federal depreciation present value for machines (dbsl, life 7,
federal bonus 0.4). -/
def zfM (ext : Ext) (u_s : ℚ) : ℚ := ext.dbsl 7 2 0.4 (r_of ext u_s)

/-- State depreciation present value for machines (dbsl, state bonus 0). -/
def zsM (ext : Ext) (u_s : ℚ) : ℚ := ext.dbsl 7 2 0.0 (r_of ext u_s)

/-- Federal depreciation present value for buildings (sl, life 39,
federal bonus 0). -/
def zfB (ext : Ext) (u_s : ℚ) : ℚ := ext.sl 39 0.0 (r_of ext u_s)

/-- State depreciation present value for buildings (sl, state bonus 0). -/
def zsB (ext : Ext) (u_s : ℚ) : ℚ := ext.sl 39 0.0 (r_of ext u_s)

/-- Federal depreciation present value for intangibles (sl, life 3,
federal bonus 0.4). -/
def zfI (ext : Ext) (u_s : ℚ) : ℚ := ext.sl 3 0.4 (r_of ext u_s)

/-- State depreciation present value for intangibles (sl, state bonus 0). -/
def zsI (ext : Ext) (u_s : ℚ) : ℚ := ext.sl 3 0.0 (r_of ext u_s)

/-- Cost of capital computed for machines at given scenario parameters. -/
def rhoM (ext : Ext) (u_s franchise_tax_rate tau_GR : ℚ) : ℚ :=
  eq_coc_state 0.1031 (zfM ext u_s) (zsM ext u_s) franchise_tax_rate u_f u_s
    tau_GR 0.015 inflation_rate (r_of ext u_s)

/-- Cost of capital computed for buildings at given scenario parameters. -/
def rhoB (ext : Ext) (u_s franchise_tax_rate tau_GR : ℚ) : ℚ :=
  eq_coc_state 0.0314 (zfB ext u_s) (zsB ext u_s) franchise_tax_rate u_f u_s
    tau_GR 0.025 inflation_rate (r_of ext u_s)

/-- Cost of capital computed for intangibles at given scenario parameters. -/
def rhoI (ext : Ext) (u_s franchise_tax_rate tau_GR : ℚ) : ℚ :=
  eq_coc_state 0.33 (zfI ext u_s) (zsI ext u_s) franchise_tax_rate u_f u_s
    tau_GR 0.01 inflation_rate (r_of ext u_s)

/-- The `out_dict` entry for machines. -/
def outM (ext : Ext) (u_s franchise_tax_rate tau_GR : ℚ) : Outputs :=
  stepResult ext u_s franchise_tax_rate tau_GR 0.1031 (zfM ext u_s) (zsM ext u_s) 0.015

/-- The `out_dict` entry for buildings. -/
def outB (ext : Ext) (u_s franchise_tax_rate tau_GR : ℚ) : Outputs :=
  stepResult ext u_s franchise_tax_rate tau_GR 0.0314 (zfB ext u_s) (zsB ext u_s) 0.025

/-- The `out_dict` entry for intangibles. -/
def outI (ext : Ext) (u_s franchise_tax_rate tau_GR : ℚ) : Outputs :=
  stepResult ext u_s franchise_tax_rate tau_GR 0.33 (zfI ext u_s) (zsI ext u_s) 0.01

/-- Extract one asset's outputs from a `compute_outputs` result. -/
def getOut (res : State × List String × Except PyError (List (String × Outputs)))
    (k : String) : Option Outputs :=
  match res.2.2 with
  | .ok l => l.lookup k
  | .error _ => none

/-- The argument tuple of one invocation of the scenario evaluator. -/
structure Invocation where
  u_s : ℚ
  bonus_s : List (String × ℚ)
  franchise_tax_rate : ℚ
  tau_GR : ℚ
  inv_tax_credit : List (String × ℚ)
  deriving DecidableEq

/-- The three invocations of `compute_outputs` on lines 120-139, in
script order: current law, lower AR CIT to 3.5 percent, remove AR
franchise tax. -/
def invocations : List Invocation :=
  [⟨u_s, bonus_s, franchise_tax_rate, tau_GR, inv_tax_credit_s⟩,
   ⟨u_s_ref1, bonus_s, franchise_tax_rate, tau_GR, inv_tax_credit_s⟩,
   ⟨u_s, bonus_s, franchise_tax_rate_ref2, tau_GR, inv_tax_credit_s⟩]

/-- Run the scenario evaluator on one invocation's arguments, reading the
module dictionaries. -/
def runInv (ext : Ext) (inv : Invocation) :
    State × List String × Except PyError (List (String × Outputs)) :=
  compute_outputs ext
    ⟨depreciation_rates, depreciation_lives, depreciation_methods,
     federal_bonus_depreciation, inv.bonus_s, inv.inv_tax_credit⟩
    inv.u_s inv.franchise_tax_rate inv.tau_GR

/-- One row of the final long-form table (line 149). -/
structure Row where
  policy : String
  output_var : String
  asset_type : String
  value : ℚ
  deriving DecidableEq

/-- The row index of each wide per-scenario table: the keys of the inner
dictionaries, in insertion order (lines 114-116). -/
def output_vars : List String := ["rho", "metr", "eatr"]

/-- Select a named metric from an asset's outputs. -/
def getVar (o : Outputs) (v : String) : ℚ :=
  if v = "rho" then o.rho else if v = "metr" then o.metr else o.eatr

/-- The cell of a wide table at asset column `a` and metric row `v`. -/
def valueAt (outs : List (String × Outputs)) (a v : String) : ℚ :=
  match outs.lookup a with
  | some o => getVar o v
  | none => 0

/-- The asset-type columns of the concatenated wide table: the keys of
the first frame (all frames share them). -/
def wideCols (frames : List (String × List (String × Outputs))) : List String :=
  match frames with
  | [] => []
  | f :: _ => f.2.map Prod.fst

/-- Lines 142-149: label each scenario table with its policy name, stack
them, move the metric index into a column, and melt to long form with
columns (Policy, output_var, asset_type, value): one row per asset-type
column and (policy, metric) row of the stacked wide table. -/
def meltRows (frames : List (String × List (String × Outputs))) : List Row :=
  (wideCols frames).flatMap fun a =>
    frames.flatMap fun pf =>
      output_vars.map fun v => ⟨pf.1, v, a, valueAt pf.2 a v⟩

/-- The final long-form table `df` (line 149), or the Python error that
aborted one of the three scenario evaluations. -/
def df_rows (ext : Ext) : Except PyError (List Row) :=
  match (base_out ext).2.2, (ar_citcut_out ext).2.2, (ar_frtaxrmv_out ext).2.2 with
  | .error e, _, _ => .error e
  | .ok _, .error e, _ => .error e
  | .ok _, .ok _, .error e => .error e
  | .ok b, .ok c, .ok f =>
      .ok (meltRows [("Current Law", b), ("Lower AR CIT rate to 3.5%", c),
        ("Remove AR franchise tax", f)])

/-- The diagnostic printed on line 104. -/
def diagMsg : String := "Please enter one of: dbsl, sl"

/-- The two recognized depreciation method names. -/
def okMethods : List String := ["dbsl", "sl"]

/-- The module state with the three assets' depreciation methods replaced
by arbitrary names (for the invalid-method claim). -/
def stMethods (m1 m2 m3 : String) : State :=
  { st0 with depreciation_methods :=
      [("machines", m1), ("buildings", m2), ("intangibles", m3)] }

/-- The three asset-type keys. -/
def keys3 : List String := ["machines", "buildings", "intangibles"]

/-- A concrete instantiation of the external library surface, used to
witness theorems whose hypotheses constrain the library's outputs:
constant discount rates of 0.08 and depreciation present values of 0.8. -/
def ext0 : Ext :=
  ⟨fun _ _ _ _ _ _ _ _ => 0.08, fun _ _ _ _ => 0.08,
   fun _ _ _ _ => 0.8, fun _ _ _ => 0.8, fun _ _ _ _ => 0⟩

/-- Evaluation of `assetStep` when the asset's configured method is
"dbsl" and every dictionary lookup succeeds. -/
lemma assetStep_eq_dbsl (ext : Ext) (st : State) (us w tgr : ℚ) (k : String) (v : ℚ)
    (life fb sb delta itc : ℚ)
    (hm : st.depreciation_methods.lookup k = some "dbsl")
    (hl : st.depreciation_lives.lookup k = some life)
    (hf : st.federal_bonus_depreciation.lookup k = some fb)
    (hs : st.bonus_s.lookup k = some sb)
    (hd : st.depreciation_rates.lookup k = some delta)
    (hi : st.inv_tax_credit.lookup k = some itc) :
    assetStep ext st us w tgr k v =
      ([], .ok (stepResult ext us w tgr delta (ext.dbsl life 2 fb (r_of ext us))
        (ext.dbsl life 2 sb (r_of ext us)) itc)) := by
  simp [assetStep, zPart, hm, hl, hf, hs, hd, hi, stepResult]

/-- Evaluation of `assetStep` when the asset's configured method is
"sl" and every dictionary lookup succeeds. -/
lemma assetStep_eq_sl (ext : Ext) (st : State) (us w tgr : ℚ) (k : String) (v : ℚ)
    (life fb sb delta itc : ℚ)
    (hm : st.depreciation_methods.lookup k = some "sl")
    (hl : st.depreciation_lives.lookup k = some life)
    (hf : st.federal_bonus_depreciation.lookup k = some fb)
    (hs : st.bonus_s.lookup k = some sb)
    (hd : st.depreciation_rates.lookup k = some delta)
    (hi : st.inv_tax_credit.lookup k = some itc) :
    assetStep ext st us w tgr k v =
      ([], .ok (stepResult ext us w tgr delta (ext.sl life fb (r_of ext us))
        (ext.sl life sb (r_of ext us)) itc)) := by
  simp [assetStep, zPart, hm, hl, hf, hs, hd, hi, stepResult]

/-- Evaluation of `assetStep` on an unrecognized method name: the
diagnostic is printed and the assertion failure is raised. -/
lemma assetStep_assert (ext : Ext) (st : State) (us w tgr : ℚ) (k : String) (v : ℚ)
    (m : String) (hm : st.depreciation_methods.lookup k = some m)
    (h1 : m ≠ "dbsl") (h2 : m ≠ "sl") :
    assetStep ext st us w tgr k v = ([diagMsg], .error .assertError) := by
  simp [assetStep, zPart, hm, h1, h2, diagMsg]

/-- The state-level run of `compute_outputs` at the script's module
configuration: it prints nothing and returns the three assets' outputs. -/
lemma run_st0 (ext : Ext) (us w tgr : ℚ) :
    (compute_outputs ext st0 us w tgr).2 =
      ([], .ok [("machines", outM ext us w tgr), ("buildings", outB ext us w tgr),
        ("intangibles", outI ext us w tgr)]) := rfl

/-- C1: `eq_coc_state` returns exactly the spec's combined federal+state
cost-of-capital formula, with the combined-rate denominator, the
investment-tax-credit term, and the gross-receipts gross-up. -/
theorem c1_eq_coc_state_formula
    (delta z_f z_s w u_f u_s tau_GR inv_tax_credit pi r : ℚ) :
    eq_coc_state delta z_f z_s w u_f u_s tau_GR inv_tax_credit pi r =
      (((r - pi + delta) / (1 - u_f - u_s + u_f * u_s)) *
          (1 - inv_tax_credit - u_f * z_f - u_s * z_s + u_f * u_s * z_s) + w) /
        (1 - tau_GR) - delta := rfl

/-- C2: the depreciation-schedule dispatch of `compute_outputs` routes a
"dbsl" asset to the declining-balance formula called as
`dbsl life 2 bonus r` and an "sl" asset to the straight-line formula
called as `sl life bonus r`, with the federal call taking the federal
bonus rate and the state call the state bonus rate. -/
theorem c2_method_routing (ext : Ext) (st : State) (us w tgr : ℚ) (k : String)
    (v life fb sb delta itc : ℚ)
    (hl : st.depreciation_lives.lookup k = some life)
    (hf : st.federal_bonus_depreciation.lookup k = some fb)
    (hs : st.bonus_s.lookup k = some sb)
    (hd : st.depreciation_rates.lookup k = some delta)
    (hi : st.inv_tax_credit.lookup k = some itc) :
    (st.depreciation_methods.lookup k = some "dbsl" →
      assetStep ext st us w tgr k v =
        ([], .ok (stepResult ext us w tgr delta (ext.dbsl life 2 fb (r_of ext us))
          (ext.dbsl life 2 sb (r_of ext us)) itc))) ∧
    (st.depreciation_methods.lookup k = some "sl" →
      assetStep ext st us w tgr k v =
        ([], .ok (stepResult ext us w tgr delta (ext.sl life fb (r_of ext us))
          (ext.sl life sb (r_of ext us)) itc))) :=
  ⟨fun hm => assetStep_eq_dbsl ext st us w tgr k v life fb sb delta itc hm hl hf hs hd hi,
   fun hm => assetStep_eq_sl ext st us w tgr k v life fb sb delta itc hm hl hf hs hd hi⟩

/-- Witness for C2 at the script's configuration: machines route to the
declining-balance formula and buildings to the straight-line formula. -/
theorem c2_method_routing_witness :
    assetStep ext0 st0 u_s franchise_tax_rate tau_GR "machines" 0.1031 =
      ([], .ok (stepResult ext0 u_s franchise_tax_rate tau_GR 0.1031
        (ext0.dbsl 7 2 0.4 (r_of ext0 u_s)) (ext0.dbsl 7 2 0.0 (r_of ext0 u_s)) 0.015)) ∧
    assetStep ext0 st0 u_s franchise_tax_rate tau_GR "buildings" 0.0314 =
      ([], .ok (stepResult ext0 u_s franchise_tax_rate tau_GR 0.0314
        (ext0.sl 39 0.0 (r_of ext0 u_s)) (ext0.sl 39 0.0 (r_of ext0 u_s)) 0.025)) :=
  ⟨(c2_method_routing ext0 st0 u_s franchise_tax_rate tau_GR "machines" 0.1031
      7 0.4 0.0 0.1031 0.015 rfl rfl rfl rfl rfl).1 rfl,
   (c2_method_routing ext0 st0 u_s franchise_tax_rate tau_GR "buildings" 0.0314
      39 0.0 0.0 0.0314 0.025 rfl rfl rfl rfl rfl).2 rfl⟩

/-- C8: `compute_outputs` leaves every dictionary it can read unchanged:
the returned state equals the input state, component by component. -/
theorem c8_no_mutation (ext : Ext) (st : State) (us w tgr : ℚ) :
    (compute_outputs ext st us w tgr).1 = st ∧
    (compute_outputs ext st us w tgr).1.depreciation_rates = st.depreciation_rates ∧
    (compute_outputs ext st us w tgr).1.depreciation_lives = st.depreciation_lives ∧
    (compute_outputs ext st us w tgr).1.depreciation_methods = st.depreciation_methods ∧
    (compute_outputs ext st us w tgr).1.federal_bonus_depreciation =
      st.federal_bonus_depreciation ∧
    (compute_outputs ext st us w tgr).1.bonus_s = st.bonus_s ∧
    (compute_outputs ext st us w tgr).1.inv_tax_credit = st.inv_tax_credit :=
  ⟨rfl, rfl, rfl, rfl, rfl, rfl, rfl⟩

/-- Each `assetStep` equals the hoisted step applied at the once-computed
discount rates. -/
lemma assetStep_eq_hoisted (ext : Ext) (st : State) (us w tgr : ℚ) (k : String) (v : ℚ) :
    assetStep ext st us w tgr k v =
      assetStepHoisted ext st us w tgr (r_of ext us) (rp_of ext) k v := rfl

/-- The loop equals the hoisted loop at the once-computed discount rates. -/
lemma runAssets_eq_hoisted (ext : Ext) (st : State) (us w tgr : ℚ)
    (l : List (String × ℚ)) :
    runAssets ext st us w tgr l =
      runAssetsHoisted ext st us w tgr (r_of ext us) (rp_of ext) l := by
  induction l with
  | nil => rfl
  | cons kv rest ih =>
    obtain ⟨k, v⟩ := kv
    simp only [runAssets, runAssetsHoisted, assetStep_eq_hoisted, ih]

/-- C9: `compute_outputs` is extensionally equal to the refactored
version that computes the discount rate `r` and the after-tax rate
`r_prime` once before the loop, since both depend only on call-level
parameters and not on the asset type. -/
theorem c9_hoisting_equivalence (ext : Ext) (st : State) (us w tgr : ℚ) :
    compute_outputs ext st us w tgr = compute_outputs_hoisted ext st us w tgr := by
  unfold compute_outputs compute_outputs_hoisted
  exact congrArg (Prod.mk st) (runAssets_eq_hoisted ext st us w tgr st.depreciation_rates)

/-- C7: the scenario evaluator is invoked exactly three times; the
invocations' override tuples (state tax rate, state bonus map, franchise
tax rate, state investment-tax-credit map) are pairwise distinct; and the
three invocations are exactly the script's current-law, lowered-CIT and
removed-franchise-tax evaluations. -/
theorem c7_three_invocations (ext : Ext) :
    invocations.length = 3 ∧
    List.Pairwise (fun a b =>
      (a.u_s, a.bonus_s, a.franchise_tax_rate, a.inv_tax_credit) ≠
        (b.u_s, b.bonus_s, b.franchise_tax_rate, b.inv_tax_credit)) invocations ∧
    invocations.map (runInv ext) =
      [base_out ext, ar_citcut_out ext, ar_frtaxrmv_out ext] := by
  refine ⟨rfl, ?_, rfl⟩
  simp only [invocations, List.pairwise_cons, List.mem_cons, List.mem_singleton,
    List.not_mem_nil, List.Pairwise]
  norm_num [u_s, u_s_ref1, franchise_tax_rate, franchise_tax_rate_ref2, Prod.ext_iff]

/-- The method-replaced state keeps the module's `depreciation_rates`. -/
lemma stMethods_rates (m1 m2 m3 : String) :
    (stMethods m1 m2 m3).depreciation_rates =
      [("machines", (0.1031 : ℚ)), ("buildings", 0.0314), ("intangibles", 0.33)] := rfl

/-- C3: if any asset's configured depreciation method is neither "dbsl"
nor "sl", `compute_outputs` prints exactly the diagnostic line and halts
with the assertion failure; if every method is recognized, the error
branch is unreachable and nothing is printed. -/
theorem c3_invalid_method_asserts (ext : Ext) (m1 m2 m3 : String) :
    ((m1 ∉ okMethods ∨ m2 ∉ okMethods ∨ m3 ∉ okMethods) →
      (compute_outputs ext (stMethods m1 m2 m3) u_s franchise_tax_rate tau_GR).2.1 =
          [diagMsg] ∧
        (compute_outputs ext (stMethods m1 m2 m3) u_s franchise_tax_rate tau_GR).2.2 =
          .error .assertError) ∧
    ((m1 ∈ okMethods ∧ m2 ∈ okMethods ∧ m3 ∈ okMethods) →
      (compute_outputs ext (stMethods m1 m2 m3) u_s franchise_tax_rate tau_GR).2.1 = [] ∧
        ∃ outs,
          (compute_outputs ext (stMethods m1 m2 m3) u_s franchise_tax_rate tau_GR).2.2 =
            .ok outs) := by
  have good1 : m1 ∈ okMethods → ∃ o,
      assetStep ext (stMethods m1 m2 m3) u_s franchise_tax_rate tau_GR "machines" 0.1031 =
        ([], .ok o) := by
    intro h
    rcases by simpa [okMethods] using h with h | h <;> subst h
    · exact ⟨_, assetStep_eq_dbsl ext _ _ _ _ "machines" _ 7 0.4 0.0 0.1031 0.015
        rfl rfl rfl rfl rfl rfl⟩
    · exact ⟨_, assetStep_eq_sl ext _ _ _ _ "machines" _ 7 0.4 0.0 0.1031 0.015
        rfl rfl rfl rfl rfl rfl⟩
  have good2 : m2 ∈ okMethods → ∃ o,
      assetStep ext (stMethods m1 m2 m3) u_s franchise_tax_rate tau_GR "buildings" 0.0314 =
        ([], .ok o) := by
    intro h
    rcases by simpa [okMethods] using h with h | h <;> subst h
    · exact ⟨_, assetStep_eq_dbsl ext _ _ _ _ "buildings" _ 39 0.0 0.0 0.0314 0.025
        rfl rfl rfl rfl rfl rfl⟩
    · exact ⟨_, assetStep_eq_sl ext _ _ _ _ "buildings" _ 39 0.0 0.0 0.0314 0.025
        rfl rfl rfl rfl rfl rfl⟩
  have good3 : m3 ∈ okMethods → ∃ o,
      assetStep ext (stMethods m1 m2 m3) u_s franchise_tax_rate tau_GR "intangibles" 0.33 =
        ([], .ok o) := by
    intro h
    rcases by simpa [okMethods] using h with h | h <;> subst h
    · exact ⟨_, assetStep_eq_dbsl ext _ _ _ _ "intangibles" _ 3 0.4 0.0 0.33 0.01
        rfl rfl rfl rfl rfl rfl⟩
    · exact ⟨_, assetStep_eq_sl ext _ _ _ _ "intangibles" _ 3 0.4 0.0 0.33 0.01
        rfl rfl rfl rfl rfl rfl⟩
  have bad1 : m1 ∉ okMethods →
      assetStep ext (stMethods m1 m2 m3) u_s franchise_tax_rate tau_GR "machines" 0.1031 =
        ([diagMsg], .error .assertError) := by
    intro h
    have h' : ¬(m1 = "dbsl" ∨ m1 = "sl") := by simpa [okMethods] using h
    exact assetStep_assert ext _ _ _ _ "machines" _ m1 rfl
      (fun hc => h' (Or.inl hc)) (fun hc => h' (Or.inr hc))
  have bad2 : m2 ∉ okMethods →
      assetStep ext (stMethods m1 m2 m3) u_s franchise_tax_rate tau_GR "buildings" 0.0314 =
        ([diagMsg], .error .assertError) := by
    intro h
    have h' : ¬(m2 = "dbsl" ∨ m2 = "sl") := by simpa [okMethods] using h
    exact assetStep_assert ext _ _ _ _ "buildings" _ m2 rfl
      (fun hc => h' (Or.inl hc)) (fun hc => h' (Or.inr hc))
  have bad3 : m3 ∉ okMethods →
      assetStep ext (stMethods m1 m2 m3) u_s franchise_tax_rate tau_GR "intangibles" 0.33 =
        ([diagMsg], .error .assertError) := by
    intro h
    have h' : ¬(m3 = "dbsl" ∨ m3 = "sl") := by simpa [okMethods] using h
    exact assetStep_assert ext _ _ _ _ "intangibles" _ m3 rfl
      (fun hc => h' (Or.inl hc)) (fun hc => h' (Or.inr hc))
  constructor
  · rintro (h | h | h)
    · have hb := bad1 h
      constructor <;> simp [compute_outputs, stMethods_rates, runAssets, hb]
    · by_cases hm1 : m1 ∈ okMethods
      · obtain ⟨o1, ho1⟩ := good1 hm1
        have hb := bad2 h
        constructor <;> simp [compute_outputs, stMethods_rates, runAssets, ho1, hb]
      · have hb := bad1 hm1
        constructor <;> simp [compute_outputs, stMethods_rates, runAssets, hb]
    · by_cases hm1 : m1 ∈ okMethods
      · obtain ⟨o1, ho1⟩ := good1 hm1
        by_cases hm2 : m2 ∈ okMethods
        · obtain ⟨o2, ho2⟩ := good2 hm2
          have hb := bad3 h
          constructor <;>
            simp [compute_outputs, stMethods_rates, runAssets, ho1, ho2, hb]
        · have hb := bad2 hm2
          constructor <;> simp [compute_outputs, stMethods_rates, runAssets, ho1, hb]
      · have hb := bad1 hm1
        constructor <;> simp [compute_outputs, stMethods_rates, runAssets, hb]
  · rintro ⟨h1, h2, h3⟩
    obtain ⟨o1, ho1⟩ := good1 h1
    obtain ⟨o2, ho2⟩ := good2 h2
    obtain ⟨o3, ho3⟩ := good3 h3
    constructor
    · simp [compute_outputs, stMethods_rates, runAssets, ho1, ho2, ho3]
    · exact ⟨[("machines", o1), ("buildings", o2), ("intangibles", o3)],
        by simp [compute_outputs, stMethods_rates, runAssets, ho1, ho2, ho3]⟩

/-- Witness for C3: a misconfigured first asset prints the diagnostic and
raises the assertion failure; the script's own methods print nothing and
succeed. -/
theorem c3_invalid_method_asserts_witness :
    ((compute_outputs ext0 (stMethods "ddb" "sl" "sl") u_s franchise_tax_rate tau_GR).2.1 =
        [diagMsg] ∧
      (compute_outputs ext0 (stMethods "ddb" "sl" "sl") u_s franchise_tax_rate tau_GR).2.2 =
        .error .assertError) ∧
    ((compute_outputs ext0 (stMethods "dbsl" "sl" "sl") u_s franchise_tax_rate tau_GR).2.1 =
        [] ∧
      ∃ outs,
        (compute_outputs ext0 (stMethods "dbsl" "sl" "sl") u_s franchise_tax_rate
          tau_GR).2.2 = .ok outs) :=
  ⟨(c3_invalid_method_asserts ext0 "ddb" "sl" "sl").1 (Or.inl (by decide)),
   (c3_invalid_method_asserts ext0 "dbsl" "sl" "sl").2 ⟨by decide, by decide, by decide⟩⟩

/-- The spec-modelled METR is strictly increasing in the cost of capital
while the cost of capital is positive and the real after-tax return is
positive. -/
lemma eq_metr_lt_of_lt (rp pi a b : ℚ) (hpi : pi < rp) (ha : 0 < a) (hab : a < b) :
    eq_metr a rp pi < eq_metr b rp pi := by
  have hb : 0 < b := ha.trans hab
  unfold eq_metr
  rw [div_lt_div_iff ha hb]
  nlinarith [mul_pos (sub_pos.mpr hpi) (sub_pos.mpr hab)]

/-- The cost of capital is strictly increasing in the franchise tax rate
whenever the gross-receipts rate is below one. -/
lemma eq_coc_state_w_lt (delta zf zs uf us tgr itc pi r w1 w2 : ℚ)
    (ht : tgr < 1) (hw : w1 < w2) :
    eq_coc_state delta zf zs w1 uf us tgr itc pi r <
      eq_coc_state delta zf zs w2 uf us tgr itc pi r := by
  have h1 : (0 : ℚ) < 1 - tgr := by linarith
  unfold eq_coc_state
  apply sub_lt_sub_right
  exact (div_lt_div_right h1).mpr (by linarith)

/-- C4: with every other parameter at the script's values, setting the
franchise tax rate to 0 instead of 0.003 strictly decreases the computed
rho and metr for each of the three asset types, for every instantiation
of the external library with a positive reformed cost of capital and a
real after-tax return above inflation. -/
theorem c4_franchise_tax_monotone (ext : Ext)
    (hrp : inflation_rate < rp_of ext)
    (hM : 0 < rhoM ext u_s franchise_tax_rate_ref2 tau_GR)
    (hB : 0 < rhoB ext u_s franchise_tax_rate_ref2 tau_GR)
    (hI : 0 < rhoI ext u_s franchise_tax_rate_ref2 tau_GR) :
    ∀ k ∈ keys3, ∃ o1 o2,
      getOut (base_out ext) k = some o1 ∧ getOut (ar_frtaxrmv_out ext) k = some o2 ∧
      o2.rho < o1.rho ∧ o2.metr < o1.metr := by
  have ht : tau_GR < 1 := by norm_num [tau_GR]
  have hw : franchise_tax_rate_ref2 < franchise_tax_rate := by
    norm_num [franchise_tax_rate, franchise_tax_rate_ref2]
  have hrhoM : rhoM ext u_s franchise_tax_rate_ref2 tau_GR <
      rhoM ext u_s franchise_tax_rate tau_GR := by
    unfold rhoM
    exact eq_coc_state_w_lt _ _ _ _ _ _ _ _ _ _ _ ht hw
  have hrhoB : rhoB ext u_s franchise_tax_rate_ref2 tau_GR <
      rhoB ext u_s franchise_tax_rate tau_GR := by
    unfold rhoB
    exact eq_coc_state_w_lt _ _ _ _ _ _ _ _ _ _ _ ht hw
  have hrhoI : rhoI ext u_s franchise_tax_rate_ref2 tau_GR <
      rhoI ext u_s franchise_tax_rate tau_GR := by
    unfold rhoI
    exact eq_coc_state_w_lt _ _ _ _ _ _ _ _ _ _ _ ht hw
  intro k hk
  simp only [keys3, List.mem_cons, List.mem_singleton, List.not_mem_nil, or_false] at hk
  rcases hk with rfl | rfl | rfl
  · exact ⟨outM ext u_s franchise_tax_rate tau_GR,
      outM ext u_s franchise_tax_rate_ref2 tau_GR, rfl, rfl, hrhoM,
      eq_metr_lt_of_lt _ _ _ _ hrp hM hrhoM⟩
  · exact ⟨outB ext u_s franchise_tax_rate tau_GR,
      outB ext u_s franchise_tax_rate_ref2 tau_GR, rfl, rfl, hrhoB,
      eq_metr_lt_of_lt _ _ _ _ hrp hB hrhoB⟩
  · exact ⟨outI ext u_s franchise_tax_rate tau_GR,
      outI ext u_s franchise_tax_rate_ref2 tau_GR, rfl, rfl, hrhoI,
      eq_metr_lt_of_lt _ _ _ _ hrp hI hrhoI⟩

/-- Witness for C4 at a concrete library instantiation, machines asset. -/
theorem c4_franchise_tax_monotone_witness :
    ∃ o1 o2,
      getOut (base_out ext0) "machines" = some o1 ∧
      getOut (ar_frtaxrmv_out ext0) "machines" = some o2 ∧
      o2.rho < o1.rho ∧ o2.metr < o1.metr :=
  c4_franchise_tax_monotone ext0
    (by norm_num [inflation_rate, rp_of, ext0])
    (by norm_num [rhoM, eq_coc_state, zfM, zsM, r_of, ext0, u_f, u_s, inflation_rate,
      tau_GR, franchise_tax_rate_ref2, nominal_int_rate, fraction_financed_w_debt,
      int_haircut, E])
    (by norm_num [rhoB, eq_coc_state, zfB, zsB, r_of, ext0, u_f, u_s, inflation_rate,
      tau_GR, franchise_tax_rate_ref2, nominal_int_rate, fraction_financed_w_debt,
      int_haircut, E])
    (by norm_num [rhoI, eq_coc_state, zfI, zsI, r_of, ext0, u_f, u_s, inflation_rate,
      tau_GR, franchise_tax_rate_ref2, nominal_int_rate, fraction_financed_w_debt,
      int_haircut, E])
    "machines" (by simp [keys3])

/-- The cost of capital at the script's rates is strictly lower at the
reform state statutory rate 0.035 than at the current-law rate 0.043,
provided the real return gross of depreciation is positive and the
credit-and-federal-depreciation-adjusted base exceeds the state
depreciation term (both hold at the script's magnitudes). -/
lemma eq_coc_state_us_lt (delta zf zs w itc r : ℚ)
    (hC : 0 < r - inflation_rate + delta)
    (hKM : (1 - u_f) * zs < 1 - itc - u_f * zf) :
    eq_coc_state delta zf zs w u_f u_s_ref1 tau_GR itc inflation_rate r <
      eq_coc_state delta zf zs w u_f u_s tau_GR itc inflation_rate r := by
  have h1 : (0 : ℚ) < 1 - u_f - u_s_ref1 + u_f * u_s_ref1 := by
    norm_num [u_f, u_s_ref1]
  have h2 : (0 : ℚ) < 1 - u_f - u_s + u_f * u_s := by norm_num [u_f, u_s]
  have hprod := mul_pos hC (sub_pos.mpr hKM)
  unfold eq_coc_state
  apply sub_lt_sub_right
  have ht : (1 : ℚ) - tau_GR = 1 := by norm_num [tau_GR]
  rw [ht, div_one, div_one]
  apply add_lt_add_right
  rw [div_mul_eq_mul_div, div_mul_eq_mul_div, div_lt_div_iff h1 h2]
  simp only [u_f, u_s, u_s_ref1, inflation_rate] at hprod ⊢
  nlinarith [hprod]

/-- C5: with every other parameter at the script's values, lowering the
state statutory rate from 0.043 to 0.035 strictly decreases the computed
metr for each of the three asset types, for every instantiation of the
external library whose discount rate is unchanged by the state-rate cut
(true of the consumed library at zero debt financing) and whose outputs
satisfy the stated sign conditions. -/
theorem c5_state_rate_monotone (ext : Ext)
    (hr : r_of ext u_s_ref1 = r_of ext u_s)
    (hrp : inflation_rate < rp_of ext)
    (hC : 0 < r_of ext u_s - inflation_rate + 0.0314)
    (hKM1 : (1 - u_f) * zsM ext u_s < 1 - 0.015 - u_f * zfM ext u_s)
    (hKM2 : (1 - u_f) * zsB ext u_s < 1 - 0.025 - u_f * zfB ext u_s)
    (hKM3 : (1 - u_f) * zsI ext u_s < 1 - 0.01 - u_f * zfI ext u_s)
    (hM : 0 < rhoM ext u_s_ref1 franchise_tax_rate tau_GR)
    (hB : 0 < rhoB ext u_s_ref1 franchise_tax_rate tau_GR)
    (hI : 0 < rhoI ext u_s_ref1 franchise_tax_rate tau_GR) :
    ∀ k ∈ keys3, ∃ o1 o2,
      getOut (base_out ext) k = some o1 ∧ getOut (ar_citcut_out ext) k = some o2 ∧
      o2.metr < o1.metr := by
  have hzfM : zfM ext u_s_ref1 = zfM ext u_s := by unfold zfM; rw [hr]
  have hzsM : zsM ext u_s_ref1 = zsM ext u_s := by unfold zsM; rw [hr]
  have hzfB : zfB ext u_s_ref1 = zfB ext u_s := by unfold zfB; rw [hr]
  have hzsB : zsB ext u_s_ref1 = zsB ext u_s := by unfold zsB; rw [hr]
  have hzfI : zfI ext u_s_ref1 = zfI ext u_s := by unfold zfI; rw [hr]
  have hzsI : zsI ext u_s_ref1 = zsI ext u_s := by unfold zsI; rw [hr]
  have hCM : 0 < r_of ext u_s - inflation_rate + 0.1031 := by
    norm_num [inflation_rate] at hC ⊢; linarith
  have hCB : 0 < r_of ext u_s - inflation_rate + 0.0314 := hC
  have hCI : 0 < r_of ext u_s - inflation_rate + 0.33 := by
    norm_num [inflation_rate] at hC ⊢; linarith
  have hrhoM : rhoM ext u_s_ref1 franchise_tax_rate tau_GR <
      rhoM ext u_s franchise_tax_rate tau_GR := by
    unfold rhoM
    rw [hzfM, hzsM, hr]
    exact eq_coc_state_us_lt _ _ _ _ _ _ hCM hKM1
  have hrhoB : rhoB ext u_s_ref1 franchise_tax_rate tau_GR <
      rhoB ext u_s franchise_tax_rate tau_GR := by
    unfold rhoB
    rw [hzfB, hzsB, hr]
    exact eq_coc_state_us_lt _ _ _ _ _ _ hCB hKM2
  have hrhoI : rhoI ext u_s_ref1 franchise_tax_rate tau_GR <
      rhoI ext u_s franchise_tax_rate tau_GR := by
    unfold rhoI
    rw [hzfI, hzsI, hr]
    exact eq_coc_state_us_lt _ _ _ _ _ _ hCI hKM3
  intro k hk
  simp only [keys3, List.mem_cons, List.mem_singleton, List.not_mem_nil, or_false] at hk
  rcases hk with rfl | rfl | rfl
  · exact ⟨outM ext u_s franchise_tax_rate tau_GR,
      outM ext u_s_ref1 franchise_tax_rate tau_GR, rfl, rfl,
      eq_metr_lt_of_lt _ _ _ _ hrp hM hrhoM⟩
  · exact ⟨outB ext u_s franchise_tax_rate tau_GR,
      outB ext u_s_ref1 franchise_tax_rate tau_GR, rfl, rfl,
      eq_metr_lt_of_lt _ _ _ _ hrp hB hrhoB⟩
  · exact ⟨outI ext u_s franchise_tax_rate tau_GR,
      outI ext u_s_ref1 franchise_tax_rate tau_GR, rfl, rfl,
      eq_metr_lt_of_lt _ _ _ _ hrp hI hrhoI⟩

/-- Witness for C5 at a concrete library instantiation, machines asset. -/
theorem c5_state_rate_monotone_witness :
    ∃ o1 o2,
      getOut (base_out ext0) "machines" = some o1 ∧
      getOut (ar_citcut_out ext0) "machines" = some o2 ∧
      o2.metr < o1.metr :=
  c5_state_rate_monotone ext0
    rfl
    (by norm_num [inflation_rate, rp_of, ext0])
    (by norm_num [inflation_rate, r_of, ext0])
    (by norm_num [zsM, zfM, u_f, ext0])
    (by norm_num [zsB, zfB, u_f, ext0])
    (by norm_num [zsI, zfI, u_f, ext0])
    (by norm_num [rhoM, eq_coc_state, zfM, zsM, r_of, ext0, u_f, u_s_ref1,
      inflation_rate, tau_GR, franchise_tax_rate])
    (by norm_num [rhoB, eq_coc_state, zfB, zsB, r_of, ext0, u_f, u_s_ref1,
      inflation_rate, tau_GR, franchise_tax_rate])
    (by norm_num [rhoI, eq_coc_state, zfI, zsI, r_of, ext0, u_f, u_s_ref1,
      inflation_rate, tau_GR, franchise_tax_rate])
    "machines" (by simp [keys3])

/-- C6: the final long-form table has exactly 27 rows (3 policies times 3
output metrics times 3 asset types), each uniquely identified by its
(Policy, output_var, asset_type) triple, for every instantiation of the
external library. -/
theorem c6_long_table_27_rows (ext : Ext) :
    ∃ rows, df_rows ext = .ok rows ∧ rows.length = 27 ∧
      (rows.map fun row => (row.policy, row.output_var, row.asset_type)).Nodup := by
  refine ⟨_, rfl, rfl, ?_⟩
  show List.Nodup
    [("Current Law", "rho", "machines"), ("Current Law", "metr", "machines"),
     ("Current Law", "eatr", "machines"),
     ("Lower AR CIT rate to 3.5%", "rho", "machines"),
     ("Lower AR CIT rate to 3.5%", "metr", "machines"),
     ("Lower AR CIT rate to 3.5%", "eatr", "machines"),
     ("Remove AR franchise tax", "rho", "machines"),
     ("Remove AR franchise tax", "metr", "machines"),
     ("Remove AR franchise tax", "eatr", "machines"),
     ("Current Law", "rho", "buildings"), ("Current Law", "metr", "buildings"),
     ("Current Law", "eatr", "buildings"),
     ("Lower AR CIT rate to 3.5%", "rho", "buildings"),
     ("Lower AR CIT rate to 3.5%", "metr", "buildings"),
     ("Lower AR CIT rate to 3.5%", "eatr", "buildings"),
     ("Remove AR franchise tax", "rho", "buildings"),
     ("Remove AR franchise tax", "metr", "buildings"),
     ("Remove AR franchise tax", "eatr", "buildings"),
     ("Current Law", "rho", "intangibles"), ("Current Law", "metr", "intangibles"),
     ("Current Law", "eatr", "intangibles"),
     ("Lower AR CIT rate to 3.5%", "rho", "intangibles"),
     ("Lower AR CIT rate to 3.5%", "metr", "intangibles"),
     ("Lower AR CIT rate to 3.5%", "eatr", "intangibles"),
     ("Remove AR franchise tax", "rho", "intangibles"),
     ("Remove AR franchise tax", "metr", "intangibles"),
     ("Remove AR franchise tax", "eatr", "intangibles")]
  decide

/-- C10: with the module configuration fixed, if both caller-supplied
maps contain all three asset keys then every dictionary lookup in the
loop succeeds and the call returns a result; if either map omits one of
the keys, the call aborts with a lookup error. -/
theorem c10_lookup_safety (ext : Ext) (bs itc : List (String × ℚ)) (us w tgr : ℚ) :
    ((∀ k ∈ keys3, (bs.lookup k).isSome ∧ (itc.lookup k).isSome) →
      ∃ outs, (compute_outputs ext { st0 with bonus_s := bs, inv_tax_credit := itc }
        us w tgr).2.2 = .ok outs) ∧
    ((∃ k ∈ keys3, bs.lookup k = none ∨ itc.lookup k = none) →
      ∃ key, (compute_outputs ext { st0 with bonus_s := bs, inv_tax_credit := itc }
        us w tgr).2.2 = .error (.keyError key)) := by
  have hrates : ({ st0 with bonus_s := bs, inv_tax_credit := itc } :
      State).depreciation_rates =
      [("machines", (0.1031 : ℚ)), ("buildings", 0.0314), ("intangibles", 0.33)] := rfl
  constructor
  · intro h
    obtain ⟨h1b, h1i⟩ := h "machines" (by simp [keys3])
    obtain ⟨h2b, h2i⟩ := h "buildings" (by simp [keys3])
    obtain ⟨h3b, h3i⟩ := h "intangibles" (by simp [keys3])
    rcases Option.isSome_iff_exists.mp h1b with ⟨b1, hb1⟩
    rcases Option.isSome_iff_exists.mp h1i with ⟨i1, hi1⟩
    rcases Option.isSome_iff_exists.mp h2b with ⟨b2, hb2⟩
    rcases Option.isSome_iff_exists.mp h2i with ⟨i2, hi2⟩
    rcases Option.isSome_iff_exists.mp h3b with ⟨b3, hb3⟩
    rcases Option.isSome_iff_exists.mp h3i with ⟨i3, hi3⟩
    have s1 := assetStep_eq_dbsl ext { st0 with bonus_s := bs, inv_tax_credit := itc }
      us w tgr "machines" 0.1031 7 0.4 b1 0.1031 i1 rfl rfl rfl hb1 rfl hi1
    have s2 := assetStep_eq_sl ext { st0 with bonus_s := bs, inv_tax_credit := itc }
      us w tgr "buildings" 0.0314 39 0.0 b2 0.0314 i2 rfl rfl rfl hb2 rfl hi2
    have s3 := assetStep_eq_sl ext { st0 with bonus_s := bs, inv_tax_credit := itc }
      us w tgr "intangibles" 0.33 3 0.4 b3 0.33 i3 rfl rfl rfl hb3 rfl hi3
    exact ⟨[("machines", stepResult ext us w tgr 0.1031 (ext.dbsl 7 2 0.4 (r_of ext us))
        (ext.dbsl 7 2 b1 (r_of ext us)) i1),
      ("buildings", stepResult ext us w tgr 0.0314 (ext.sl 39 0.0 (r_of ext us))
        (ext.sl 39 b2 (r_of ext us)) i2),
      ("intangibles", stepResult ext us w tgr 0.33 (ext.sl 3 0.4 (r_of ext us))
        (ext.sl 3 b3 (r_of ext us)) i3)],
      by simp [compute_outputs, hrates, runAssets, s1, s2, s3]⟩
  · intro h
    rcases hb1 : bs.lookup "machines" with _ | b1
    · have s1 : assetStep ext { st0 with bonus_s := bs, inv_tax_credit := itc }
          us w tgr "machines" 0.1031 = ([], .error (.keyError "machines")) := by
        simp [assetStep, zPart,
          show ({ st0 with bonus_s := bs, inv_tax_credit := itc } :
            State).depreciation_methods.lookup "machines" = some "dbsl" from rfl,
          show ({ st0 with bonus_s := bs, inv_tax_credit := itc } :
            State).depreciation_lives.lookup "machines" = some 7 from rfl,
          show ({ st0 with bonus_s := bs, inv_tax_credit := itc } :
            State).federal_bonus_depreciation.lookup "machines" = some 0.4 from rfl,
          hb1]
      exact ⟨"machines", by simp [compute_outputs, hrates, runAssets, s1]⟩
    · rcases hi1 : itc.lookup "machines" with _ | i1
      · have s1 : assetStep ext { st0 with bonus_s := bs, inv_tax_credit := itc }
            us w tgr "machines" 0.1031 = ([], .error (.keyError "machines")) := by
          simp [assetStep, zPart,
            show ({ st0 with bonus_s := bs, inv_tax_credit := itc } :
              State).depreciation_methods.lookup "machines" = some "dbsl" from rfl,
            show ({ st0 with bonus_s := bs, inv_tax_credit := itc } :
              State).depreciation_lives.lookup "machines" = some 7 from rfl,
            show ({ st0 with bonus_s := bs, inv_tax_credit := itc } :
              State).federal_bonus_depreciation.lookup "machines" = some 0.4 from rfl,
            show ({ st0 with bonus_s := bs, inv_tax_credit := itc } :
              State).depreciation_rates.lookup "machines" = some 0.1031 from rfl,
            hb1, hi1]
        exact ⟨"machines", by simp [compute_outputs, hrates, runAssets, s1]⟩
      · have s1 := assetStep_eq_dbsl ext
          { st0 with bonus_s := bs, inv_tax_credit := itc }
          us w tgr "machines" 0.1031 7 0.4 b1 0.1031 i1 rfl rfl rfl hb1 rfl hi1
        rcases hb2 : bs.lookup "buildings" with _ | b2
        · have s2 : assetStep ext { st0 with bonus_s := bs, inv_tax_credit := itc }
              us w tgr "buildings" 0.0314 = ([], .error (.keyError "buildings")) := by
            simp [assetStep, zPart,
              show ({ st0 with bonus_s := bs, inv_tax_credit := itc } :
                State).depreciation_methods.lookup "buildings" = some "sl" from rfl,
              show ({ st0 with bonus_s := bs, inv_tax_credit := itc } :
                State).depreciation_lives.lookup "buildings" = some 39 from rfl,
              show ({ st0 with bonus_s := bs, inv_tax_credit := itc } :
                State).federal_bonus_depreciation.lookup "buildings" = some 0.0 from rfl,
              hb2]
          exact ⟨"buildings", by simp [compute_outputs, hrates, runAssets, s1, s2]⟩
        · rcases hi2 : itc.lookup "buildings" with _ | i2
          · have s2 : assetStep ext { st0 with bonus_s := bs, inv_tax_credit := itc }
                us w tgr "buildings" 0.0314 = ([], .error (.keyError "buildings")) := by
              simp [assetStep, zPart,
                show ({ st0 with bonus_s := bs, inv_tax_credit := itc } :
                  State).depreciation_methods.lookup "buildings" = some "sl" from rfl,
                show ({ st0 with bonus_s := bs, inv_tax_credit := itc } :
                  State).depreciation_lives.lookup "buildings" = some 39 from rfl,
                show ({ st0 with bonus_s := bs, inv_tax_credit := itc } :
                  State).federal_bonus_depreciation.lookup "buildings" =
                    some 0.0 from rfl,
                show ({ st0 with bonus_s := bs, inv_tax_credit := itc } :
                  State).depreciation_rates.lookup "buildings" = some 0.0314 from rfl,
                hb2, hi2]
            exact ⟨"buildings", by simp [compute_outputs, hrates, runAssets, s1, s2]⟩
          · have s2 := assetStep_eq_sl ext
              { st0 with bonus_s := bs, inv_tax_credit := itc }
              us w tgr "buildings" 0.0314 39 0.0 b2 0.0314 i2 rfl rfl rfl hb2 rfl hi2
            rcases hb3 : bs.lookup "intangibles" with _ | b3
            · have s3 : assetStep ext { st0 with bonus_s := bs, inv_tax_credit := itc }
                  us w tgr "intangibles" 0.33 =
                    ([], .error (.keyError "intangibles")) := by
                simp [assetStep, zPart,
                  show ({ st0 with bonus_s := bs, inv_tax_credit := itc } :
                    State).depreciation_methods.lookup "intangibles" =
                      some "sl" from rfl,
                  show ({ st0 with bonus_s := bs, inv_tax_credit := itc } :
                    State).depreciation_lives.lookup "intangibles" = some 3 from rfl,
                  show ({ st0 with bonus_s := bs, inv_tax_credit := itc } :
                    State).federal_bonus_depreciation.lookup "intangibles" =
                      some 0.4 from rfl,
                  hb3]
              exact ⟨"intangibles",
                by simp [compute_outputs, hrates, runAssets, s1, s2, s3]⟩
            · rcases hi3 : itc.lookup "intangibles" with _ | i3
              · have s3 : assetStep ext
                    { st0 with bonus_s := bs, inv_tax_credit := itc }
                    us w tgr "intangibles" 0.33 =
                      ([], .error (.keyError "intangibles")) := by
                  simp [assetStep, zPart,
                    show ({ st0 with bonus_s := bs, inv_tax_credit := itc } :
                      State).depreciation_methods.lookup "intangibles" =
                        some "sl" from rfl,
                    show ({ st0 with bonus_s := bs, inv_tax_credit := itc } :
                      State).depreciation_lives.lookup "intangibles" =
                        some 3 from rfl,
                    show ({ st0 with bonus_s := bs, inv_tax_credit := itc } :
                      State).federal_bonus_depreciation.lookup "intangibles" =
                        some 0.4 from rfl,
                    show ({ st0 with bonus_s := bs, inv_tax_credit := itc } :
                      State).depreciation_rates.lookup "intangibles" =
                        some 0.33 from rfl,
                    hb3, hi3]
                exact ⟨"intangibles",
                  by simp [compute_outputs, hrates, runAssets, s1, s2, s3]⟩
              · exfalso
                rcases h with ⟨key, hkey, hcase⟩
                simp only [keys3, List.mem_cons, List.mem_singleton,
                  List.not_mem_nil, or_false] at hkey
                rcases hkey with rfl | rfl | rfl <;> rcases hcase with hc | hc <;>
                  simp_all

/-- Witness for C10: with the script's own maps every lookup succeeds,
and with an empty state bonus map the call aborts on a lookup error. -/
theorem c10_lookup_safety_witness :
    (∃ outs, (compute_outputs ext0
        { st0 with bonus_s := bonus_s, inv_tax_credit := inv_tax_credit_s }
        u_s franchise_tax_rate tau_GR).2.2 = .ok outs) ∧
    (∃ key, (compute_outputs ext0
        { st0 with bonus_s := [], inv_tax_credit := inv_tax_credit_s }
        u_s franchise_tax_rate tau_GR).2.2 = .error (.keyError key)) :=
  ⟨(c10_lookup_safety ext0 bonus_s inv_tax_credit_s u_s franchise_tax_rate tau_GR).1
      (by intro k hk; simp only [keys3, List.mem_cons, List.mem_singleton,
        List.not_mem_nil, or_false] at hk; rcases hk with rfl | rfl | rfl <;>
        exact ⟨rfl, rfl⟩),
   (c10_lookup_safety ext0 [] inv_tax_credit_s u_s franchise_tax_rate tau_GR).2
      ⟨"machines", by simp [keys3], Or.inl rfl⟩⟩

end ARtest
